import Mathlib

/-
Verification of the biome_configuration crate (crates/biome_configuration/src/lib.rs).

The file embeds the configuration data model of `lib.rs` in Lean: the
`PartialConfiguration` structure (every field optional), the full
`Configuration` structure, `FilesConfiguration` with its `NonZeroU64`
size limit, the predicate accessors, the resolution accessors, the
`init` constructor, and the `ConfigurationPathHint` sum type.

The sibling modules (vcs.rs, formatter.rs, linter.rs, organize_imports.rs,
javascript.rs, json.rs, css.rs, overrides.rs) and the serde/bpaf derive
machinery are not part of the excerpt; structures and operations coming
from them are modelled from the specification and carry a doc comment
starting with `Modelled from the spec:`.
-/

namespace Biome

/-- Rust `StringSet` (from biome_deserialize), embedded as a list of strings. -/
abbrev StringSet := List String

/-- Rust `std::num::NonZeroU64`: a 64-bit unsigned integer that is not zero. -/
def NonZeroU64 : Type := {n : Nat // 0 < n ∧ n < 2 ^ 64}

instance : DecidableEq NonZeroU64 :=
  fun a b => decidable_of_iff (a.1 = b.1) Subtype.ext_iff.symm

/-- The numeric value of a `NonZeroU64`. -/
def NonZeroU64.val (n : NonZeroU64) : Nat := n.1

/-- `DEFAULT_FILE_SIZE_LIMIT`: 1.0 MiB, i.e. `1024 * 1024` bytes (lib.rs line 54). -/
def DEFAULT_FILE_SIZE_LIMIT : NonZeroU64 := ⟨1024 * 1024, by decide⟩

/-- Modelled from the spec: vcs.rs is not in the excerpt. `VcsConfiguration`
holds the enable flag plus VCS-specific settings; disabled is the
default-safe state. -/
structure VcsConfiguration where
  enabled : Bool
  use_ignore_file : Bool
  deriving DecidableEq

/-- Modelled from the spec: the hard-coded default of `VcsConfiguration`
(VCS disabled by default). -/
def VcsConfiguration.default : VcsConfiguration :=
  { enabled := false, use_ignore_file := false }

/-- Modelled from the spec: the partial (all-optional) form of
`VcsConfiguration` produced by the `Partial` derive in vcs.rs. -/
structure PartialVcsConfiguration where
  enabled : Option Bool
  use_ignore_file : Option Bool
  deriving DecidableEq

/-- Modelled from the spec: the all-absent default of the partial form. -/
def PartialVcsConfiguration.default : PartialVcsConfiguration :=
  { enabled := none, use_ignore_file := none }

/-- Modelled from the spec: vcs.rs `PartialVcsConfiguration::is_disabled`;
disabled is the default-safe state, so an absent enable flag counts as
disabled. -/
def PartialVcsConfiguration.is_disabled (v : PartialVcsConfiguration) : Bool :=
  !(v.enabled.getD false)

/-- Modelled from the spec: formatter.rs is not in the excerpt. The full
formatter aggregate, every field concrete. -/
structure FormatterConfiguration where
  enabled : Bool
  indent_width : Nat
  deriving DecidableEq

/-- Modelled from the spec: the hard-coded default of `FormatterConfiguration`. -/
def FormatterConfiguration.default : FormatterConfiguration :=
  { enabled := true, indent_width := 2 }

/-- Modelled from the spec: the partial form of the formatter aggregate. -/
structure PartialFormatterConfiguration where
  enabled : Option Bool
  indent_width : Option Nat
  deriving DecidableEq

/-- Modelled from the spec: the all-absent default of the partial form. -/
def PartialFormatterConfiguration.default : PartialFormatterConfiguration :=
  { enabled := none, indent_width := none }

/-- Modelled from the spec: formatter.rs `is_disabled`; the aggregate is
disabled when it is explicitly disabled (`enabled` present and false). -/
def PartialFormatterConfiguration.is_disabled (f : PartialFormatterConfiguration) : Bool :=
  match f.enabled with
  | some b => !b
  | none => false

/-- Modelled from the spec: formatter.rs `get_formatter_configuration`,
replacing every absent leaf field with its hard-coded default. -/
def PartialFormatterConfiguration.get_formatter_configuration
    (f : PartialFormatterConfiguration) : FormatterConfiguration :=
  { enabled := f.enabled.getD FormatterConfiguration.default.enabled,
    indent_width := f.indent_width.getD FormatterConfiguration.default.indent_width }

/-- Modelled from the spec: organize_imports.rs is not in the excerpt. -/
structure OrganizeImports where
  enabled : Bool
  deriving DecidableEq

/-- Modelled from the spec: the hard-coded default of `OrganizeImports`. -/
def OrganizeImports.default : OrganizeImports := { enabled := true }

/-- Modelled from the spec: the partial form of the import-organizer aggregate. -/
structure PartialOrganizeImports where
  enabled : Option Bool
  ignore : Option StringSet
  deriving DecidableEq

/-- Modelled from the spec: the all-absent default of the partial form. -/
def PartialOrganizeImports.default : PartialOrganizeImports :=
  { enabled := none, ignore := none }

/-- Modelled from the spec: organize_imports.rs `is_disabled`; disabled when
explicitly disabled. -/
def PartialOrganizeImports.is_disabled (o : PartialOrganizeImports) : Bool :=
  match o.enabled with
  | some b => !b
  | none => false

/-- Rust `Rules` (linter.rs): the rule table; its own fields stay optional
even in the full form, as used directly by `PartialConfiguration::init`
(lib.rs line 123). Modelled from the spec for the fields beyond
`recommended`. -/
structure Rules where
  recommended : Option Bool
  all : Option Bool
  deriving DecidableEq

/-- The all-absent default rule table, `Rules::default()`. -/
def Rules.default : Rules := { recommended := none, all := none }

/-- Modelled from the spec: linter.rs full linter aggregate. -/
structure LinterConfiguration where
  enabled : Bool
  rules : Rules
  ignore : StringSet
  deriving DecidableEq

/-- Modelled from the spec: the hard-coded default of `LinterConfiguration`. -/
def LinterConfiguration.default : LinterConfiguration :=
  { enabled := true, rules := Rules.default, ignore := [] }

/-- Modelled from the spec: the partial form of the linter aggregate. -/
structure PartialLinterConfiguration where
  enabled : Option Bool
  rules : Option Rules
  ignore : Option StringSet
  deriving DecidableEq

/-- Modelled from the spec: the all-absent default of the partial form. -/
def PartialLinterConfiguration.default : PartialLinterConfiguration :=
  { enabled := none, rules := none, ignore := none }

/-- Modelled from the spec: linter.rs `is_disabled`; disabled when explicitly
disabled. -/
def PartialLinterConfiguration.is_disabled (l : PartialLinterConfiguration) : Bool :=
  match l.enabled with
  | some b => !b
  | none => false

/-- Modelled from the spec: linter.rs `get_rules`, the rule table or its
default when absent. -/
def PartialLinterConfiguration.get_rules (l : PartialLinterConfiguration) : Rules :=
  l.rules.getD Rules.default

/-- Modelled from the spec: javascript.rs full JavaScript formatter settings. -/
structure JavascriptFormatter where
  enabled : Bool
  quote_style : String
  deriving DecidableEq

/-- Modelled from the spec: the hard-coded default of `JavascriptFormatter`. -/
def JavascriptFormatter.default : JavascriptFormatter :=
  { enabled := true, quote_style := "double" }

/-- Modelled from the spec: the partial form of the JavaScript formatter. -/
structure PartialJavascriptFormatter where
  enabled : Option Bool
  quote_style : Option String
  deriving DecidableEq

/-- Modelled from the spec: the all-absent default of the partial form. -/
def PartialJavascriptFormatter.default : PartialJavascriptFormatter :=
  { enabled := none, quote_style := none }

/-- Modelled from the spec: javascript.rs `get_formatter_configuration`,
replacing absent leaves with hard-coded defaults. -/
def PartialJavascriptFormatter.get_formatter_configuration
    (f : PartialJavascriptFormatter) : JavascriptFormatter :=
  { enabled := f.enabled.getD JavascriptFormatter.default.enabled,
    quote_style := f.quote_style.getD JavascriptFormatter.default.quote_style }

/-- Modelled from the spec: the partial JavaScript language aggregate; the
field used by lib.rs is its `formatter` field. -/
structure PartialJavascriptConfiguration where
  formatter : Option PartialJavascriptFormatter
  deriving DecidableEq

/-- Modelled from the spec: the all-absent default of the partial form. -/
def PartialJavascriptConfiguration.default : PartialJavascriptConfiguration :=
  { formatter := none }

/-- Modelled from the spec: the full JavaScript language aggregate. -/
structure JavascriptConfiguration where
  formatter : JavascriptFormatter
  deriving DecidableEq

/-- Modelled from the spec: json.rs full JSON formatter settings. -/
structure JsonFormatter where
  enabled : Bool
  indent_width : Nat
  deriving DecidableEq

/-- Modelled from the spec: the hard-coded default of `JsonFormatter`. -/
def JsonFormatter.default : JsonFormatter :=
  { enabled := true, indent_width := 2 }

/-- Modelled from the spec: the partial form of the JSON formatter. -/
structure PartialJsonFormatter where
  enabled : Option Bool
  indent_width : Option Nat
  deriving DecidableEq

/-- Modelled from the spec: the all-absent default of the partial form. -/
def PartialJsonFormatter.default : PartialJsonFormatter :=
  { enabled := none, indent_width := none }

/-- Modelled from the spec: json.rs `get_formatter_configuration`. -/
def PartialJsonFormatter.get_formatter_configuration
    (f : PartialJsonFormatter) : JsonFormatter :=
  { enabled := f.enabled.getD JsonFormatter.default.enabled,
    indent_width := f.indent_width.getD JsonFormatter.default.indent_width }

/-- Modelled from the spec: the partial JSON language aggregate. -/
structure PartialJsonConfiguration where
  formatter : Option PartialJsonFormatter
  deriving DecidableEq

/-- Modelled from the spec: the all-absent default of the partial form. -/
def PartialJsonConfiguration.default : PartialJsonConfiguration :=
  { formatter := none }

/-- Modelled from the spec: the full JSON language aggregate. -/
structure JsonConfiguration where
  formatter : JsonFormatter
  deriving DecidableEq

/-- Modelled from the spec: css.rs full CSS formatter settings. -/
structure CssFormatter where
  enabled : Bool
  deriving DecidableEq

/-- Modelled from the spec: the hard-coded default of `CssFormatter`. -/
def CssFormatter.default : CssFormatter := { enabled := false }

/-- Modelled from the spec: the partial form of the CSS formatter. -/
structure PartialCssFormatter where
  enabled : Option Bool
  deriving DecidableEq

/-- Modelled from the spec: the partial CSS language aggregate. -/
structure PartialCssConfiguration where
  formatter : Option PartialCssFormatter
  deriving DecidableEq

/-- Modelled from the spec: the all-absent default of the partial form. -/
def PartialCssConfiguration.default : PartialCssConfiguration :=
  { formatter := none }

/-- Modelled from the spec: the full CSS language aggregate. -/
structure CssConfiguration where
  formatter : CssFormatter
  deriving DecidableEq

/-- Modelled from the spec: overrides.rs `OverridePattern`, a glob-scoped
partial configuration delta holding include/exclude glob sets and a
partial per-tool configuration (formatter, linter, organize-imports);
lib.rs carries the list. -/
structure OverridePattern where
  ignore : StringSet
  include_patterns : StringSet
  formatter : Option PartialFormatterConfiguration
  linter : Option PartialLinterConfiguration
  organize_imports : Option PartialOrganizeImports
  deriving DecidableEq

/-- Rust `Overrides`: an ordered list of override patterns. -/
abbrev Overrides := List OverridePattern

/-- `FilesConfiguration` (lib.rs lines 199-218): the filesystem settings. -/
structure FilesConfiguration where
  max_size : NonZeroU64
  ignore : StringSet
  include_patterns : StringSet
  ignore_unknown : Bool
  deriving DecidableEq

/-- `impl Default for FilesConfiguration` (lib.rs lines 220-229):
`max_size` is `DEFAULT_FILE_SIZE_LIMIT`, everything else empty or false. -/
def FilesConfiguration.default : FilesConfiguration :=
  { max_size := DEFAULT_FILE_SIZE_LIMIT,
    ignore := [],
    include_patterns := [],
    ignore_unknown := false }

/-- `PartialFilesConfiguration`: the all-optional form generated by the
`Partial` derive on `FilesConfiguration`. -/
structure PartialFilesConfiguration where
  max_size : Option NonZeroU64
  ignore : Option StringSet
  include_patterns : Option StringSet
  ignore_unknown : Option Bool
  deriving DecidableEq

/-- The all-absent default of `PartialFilesConfiguration`. -/
def PartialFilesConfiguration.default : PartialFilesConfiguration :=
  { max_size := none, ignore := none, include_patterns := none, ignore_unknown := none }

/-- `PartialConfiguration` (lib.rs lines 59-111): the all-optional form of
`Configuration` generated by the `Partial` derive; the wire/user-facing
form. The Rust field `extends` is a reserved word in Lean and is embedded
as `extendsList`. -/
structure PartialConfiguration where
  schema : Option String
  vcs : Option PartialVcsConfiguration
  files : Option PartialFilesConfiguration
  formatter : Option PartialFormatterConfiguration
  organize_imports : Option PartialOrganizeImports
  linter : Option PartialLinterConfiguration
  javascript : Option PartialJavascriptConfiguration
  json : Option PartialJsonConfiguration
  css : Option PartialCssConfiguration
  extendsList : Option StringSet
  overrides : Option Overrides
  deriving DecidableEq

/-- The all-absent default of `PartialConfiguration` (the derived
`Default::default()`). -/
def PartialConfiguration.default : PartialConfiguration :=
  { schema := none, vcs := none, files := none, formatter := none,
    organize_imports := none, linter := none, javascript := none,
    json := none, css := none, extendsList := none, overrides := none }

/-- `Configuration` (lib.rs lines 63-111): the full form, every field
concrete. -/
structure Configuration where
  schema : String
  vcs : VcsConfiguration
  files : FilesConfiguration
  formatter : FormatterConfiguration
  organize_imports : OrganizeImports
  linter : LinterConfiguration
  javascript : JavascriptConfiguration
  json : JsonConfiguration
  css : CssConfiguration
  extendsList : StringSet
  overrides : Overrides
  deriving DecidableEq

/-- The hard-coded default `Configuration` (the derived `Default`). -/
def Configuration.default : Configuration :=
  { schema := "",
    vcs := VcsConfiguration.default,
    files := FilesConfiguration.default,
    formatter := FormatterConfiguration.default,
    organize_imports := OrganizeImports.default,
    linter := LinterConfiguration.default,
    javascript := { formatter := JavascriptFormatter.default },
    json := { formatter := JsonFormatter.default },
    css := { formatter := CssFormatter.default },
    extendsList := [],
    overrides := [] }

/-- `PartialConfiguration::init` (lib.rs lines 115-131): the configuration
generated by `biome init`: organize-imports enabled, linter enabled with
the recommended rules on, everything else default. -/
def PartialConfiguration.init : PartialConfiguration :=
  { PartialConfiguration.default with
    organize_imports := some
      { PartialOrganizeImports.default with enabled := some true },
    linter := some
      { PartialLinterConfiguration.default with
        enabled := some true,
        rules := some { Rules.default with recommended := some true } } }

/-- `PartialConfiguration::is_formatter_disabled` (lib.rs lines 133-135):
`self.formatter.as_ref().map_or(false, |f| f.is_disabled())`. -/
def PartialConfiguration.is_formatter_disabled (p : PartialConfiguration) : Bool :=
  match p.formatter with
  | none => false
  | some f => f.is_disabled

/-- `PartialConfiguration::get_formatter_configuration` (lib.rs lines
137-142): resolve the formatter aggregate, defaulting when absent. -/
def PartialConfiguration.get_formatter_configuration
    (p : PartialConfiguration) : FormatterConfiguration :=
  match p.formatter with
  | none => FormatterConfiguration.default
  | some f => f.get_formatter_configuration

/-- `PartialConfiguration::get_javascript_formatter_configuration` (lib.rs
lines 144-154): the JavaScript formatter settings, defaulting when the
`javascript` aggregate or its `formatter` field is absent. -/
def PartialConfiguration.get_javascript_formatter_configuration
    (p : PartialConfiguration) : JavascriptFormatter :=
  match p.javascript with
  | none => JavascriptFormatter.default
  | some j =>
    match j.formatter with
    | none => JavascriptFormatter.default
    | some f => f.get_formatter_configuration

/-- `PartialConfiguration::get_json_formatter_configuration` (lib.rs lines
156-166): the JSON formatter settings, defaulting when the `json`
aggregate or its `formatter` field is absent. -/
def PartialConfiguration.get_json_formatter_configuration
    (p : PartialConfiguration) : JsonFormatter :=
  match p.json with
  | none => JsonFormatter.default
  | some j =>
    match j.formatter with
    | none => JsonFormatter.default
    | some f => f.get_formatter_configuration

/-- `PartialConfiguration::is_linter_disabled` (lib.rs lines 168-170):
`self.linter.as_ref().map_or(false, |f| f.is_disabled())`. -/
def PartialConfiguration.is_linter_disabled (p : PartialConfiguration) : Bool :=
  match p.linter with
  | none => false
  | some l => l.is_disabled

/-- `PartialConfiguration::get_linter_rules` (lib.rs lines 172-177). -/
def PartialConfiguration.get_linter_rules (p : PartialConfiguration) : Rules :=
  match p.linter with
  | none => Rules.default
  | some l => l.get_rules

/-- `PartialConfiguration::is_organize_imports_disabled` (lib.rs lines
179-183): `map_or(false, |f| f.is_disabled())`. -/
def PartialConfiguration.is_organize_imports_disabled (p : PartialConfiguration) : Bool :=
  match p.organize_imports with
  | none => false
  | some o => o.is_disabled

/-- `PartialConfiguration::is_vcs_disabled` (lib.rs lines 185-187):
`self.vcs.as_ref().map_or(true, |f| f.is_disabled())` — note the `true`
default, unlike the other three predicates. -/
def PartialConfiguration.is_vcs_disabled (p : PartialConfiguration) : Bool :=
  match p.vcs with
  | none => true
  | some v => v.is_disabled

/-- `PartialConfiguration::is_vcs_enabled` (lib.rs lines 189-191):
the negation of `is_vcs_disabled`. -/
def PartialConfiguration.is_vcs_enabled (p : PartialConfiguration) : Bool :=
  !p.is_vcs_disabled

/-- Modelled from the spec: the per-aggregate resolution of the VCS settings
(vcs.rs is not in the excerpt); absent fields fall back to the hard
defaults, VCS disabled when absent. -/
def resolveVcs (v : Option PartialVcsConfiguration) : VcsConfiguration :=
  match v with
  | none => VcsConfiguration.default
  | some pv =>
    { enabled := pv.enabled.getD VcsConfiguration.default.enabled,
      use_ignore_file := pv.use_ignore_file.getD VcsConfiguration.default.use_ignore_file }

/-- Resolution of the filesystem settings from the partial form: every
absent field falls back to the `FilesConfiguration` default. -/
def resolveFiles (f : Option PartialFilesConfiguration) : FilesConfiguration :=
  match f with
  | none => FilesConfiguration.default
  | some pf =>
    { max_size := pf.max_size.getD FilesConfiguration.default.max_size,
      ignore := pf.ignore.getD FilesConfiguration.default.ignore,
      include_patterns := pf.include_patterns.getD FilesConfiguration.default.include_patterns,
      ignore_unknown := pf.ignore_unknown.getD FilesConfiguration.default.ignore_unknown }

/-- Modelled from the spec: resolution of the import-organizer aggregate. -/
def resolveOrganizeImports (o : Option PartialOrganizeImports) : OrganizeImports :=
  match o with
  | none => OrganizeImports.default
  | some po => { enabled := po.enabled.getD OrganizeImports.default.enabled }

/-- Modelled from the spec: resolution of the linter aggregate. -/
def resolveLinter (l : Option PartialLinterConfiguration) : LinterConfiguration :=
  match l with
  | none => LinterConfiguration.default
  | some pl =>
    { enabled := pl.enabled.getD LinterConfiguration.default.enabled,
      rules := pl.rules.getD LinterConfiguration.default.rules,
      ignore := pl.ignore.getD LinterConfiguration.default.ignore }

/-- Modelled from the spec: resolution of the CSS aggregate. -/
def resolveCss (c : Option PartialCssConfiguration) : CssConfiguration :=
  match c with
  | none => { formatter := CssFormatter.default }
  | some pc =>
    { formatter :=
        match pc.formatter with
        | none => CssFormatter.default
        | some pf => { enabled := pf.enabled.getD CssFormatter.default.enabled } }

/-- Modelled from the spec: `resolve(partial) -> full` for the whole
configuration, assembling the per-aggregate resolution operations; the
language-specific formatter fields use the accessors defined in lib.rs. -/
def PartialConfiguration.resolve (p : PartialConfiguration) : Configuration :=
  { schema := p.schema.getD Configuration.default.schema,
    vcs := resolveVcs p.vcs,
    files := resolveFiles p.files,
    formatter := p.get_formatter_configuration,
    organize_imports := resolveOrganizeImports p.organize_imports,
    linter := resolveLinter p.linter,
    javascript := { formatter := p.get_javascript_formatter_configuration },
    json := { formatter := p.get_json_formatter_configuration },
    css := resolveCss p.css,
    extendsList := p.extendsList.getD Configuration.default.extendsList,
    overrides := p.overrides.getD Configuration.default.overrides }

/-- `ConfigurationPathHint` (lib.rs lines 240-253): where the loader was
told to look for the configuration file. `PathBuf` is embedded as
`String`. -/
inductive ConfigurationPathHint where
  | None : ConfigurationPathHint
  | FromLsp : String → ConfigurationPathHint
  | FromUser : String → ConfigurationPathHint
  deriving DecidableEq

/-- The `#[default]` variant of `ConfigurationPathHint` is `None`
(lib.rs line 244). -/
def ConfigurationPathHint.default : ConfigurationPathHint :=
  ConfigurationPathHint.None

/-- `ConfigurationPathHint::is_from_user` (lib.rs lines 256-258):
`matches!(self, Self::FromUser(_))`. -/
def ConfigurationPathHint.is_from_user (h : ConfigurationPathHint) : Bool :=
  match h with
  | ConfigurationPathHint.FromUser _ => true
  | _ => false

/-- `ConfigurationPathHint::is_from_lsp` (lib.rs lines 259-261):
`matches!(self, Self::FromLsp(_))`. -/
def ConfigurationPathHint.is_from_lsp (h : ConfigurationPathHint) : Bool :=
  match h with
  | ConfigurationPathHint.FromLsp _ => true
  | _ => false

/-- Modelled from the spec: the ConfigLoader treats a missing configuration
file as an error only under the `FromUser` hint (lib.rs doc comments on
the variants, spec section 4.5). -/
def missing_file_is_error (h : ConfigurationPathHint) : Bool :=
  match h with
  | ConfigurationPathHint.FromUser _ => true
  | _ => false

/-- A JSON-like document value, the input of deserialization. -/
inductive Json where
  | null : Json
  | bool : Bool → Json
  | num : Nat → Json
  | str : String → Json
  | arr : List Json → Json
  | obj : List (String × Json) → Json

/-- An error produced while deserializing a configuration document. -/
inductive DeserializationError where
  | unknownKey : String → DeserializationError
  | typeMismatch : String → DeserializationError
  | invalidValue : String → DeserializationError
  deriving DecidableEq

/-- The keys the closed `PartialConfiguration` schema declares (lib.rs
lines 59-111 with the serde camelCase rename and the `$schema` rename). -/
def configurationKeys : List String :=
  ["$schema", "vcs", "files", "formatter", "organizeImports", "linter",
   "javascript", "json", "css", "extends", "overrides"]

/-- The keys the closed `PartialFilesConfiguration` schema declares
(lib.rs lines 195-218 with the serde camelCase rename). -/
def filesConfigurationKeys : List String :=
  ["maxSize", "ignore", "include", "ignoreUnknown"]

/-- Modelled from the spec: declared keys of the VCS aggregate. -/
def vcsConfigurationKeys : List String := ["enabled", "useIgnoreFile"]

/-- Modelled from the spec: declared keys of the formatter aggregate. -/
def formatterConfigurationKeys : List String := ["enabled", "indentWidth"]

/-- Modelled from the spec: declared keys of the import-organizer aggregate. -/
def organizeImportsKeys : List String := ["enabled", "ignore"]

/-- Modelled from the spec: declared keys of the rule table. -/
def rulesKeys : List String := ["recommended", "all"]

/-- Modelled from the spec: declared keys of the linter aggregate. -/
def linterConfigurationKeys : List String := ["enabled", "rules", "ignore"]

/-- Modelled from the spec: declared keys of the JavaScript aggregate. -/
def javascriptConfigurationKeys : List String := ["formatter"]

/-- Modelled from the spec: declared keys of the JavaScript formatter. -/
def javascriptFormatterKeys : List String := ["enabled", "quoteStyle"]

/-- Modelled from the spec: declared keys of the JSON aggregate. -/
def jsonConfigurationKeys : List String := ["formatter"]

/-- Modelled from the spec: declared keys of the JSON formatter. -/
def jsonFormatterKeys : List String := ["enabled", "indentWidth"]

/-- Modelled from the spec: declared keys of the CSS aggregate. -/
def cssConfigurationKeys : List String := ["formatter"]

/-- Modelled from the spec: declared keys of the CSS formatter. -/
def cssFormatterKeys : List String := ["enabled"]

/-- The first key of an object that the given closed schema does not
declare, if any (the deny-unknown-fields check). -/
def findUnknownKey (keys : List String) (fields : List (String × Json)) : Option String :=
  (fields.find? (fun kv => !(keys.contains kv.1))).map (fun kv => kv.1)

/-- Look a key up in an object, returning its value. -/
def getField (fields : List (String × Json)) (k : String) : Option Json :=
  (fields.find? (fun kv => kv.1 == k)).map (fun kv => kv.2)

/-- Decode an optional boolean field. -/
def decodeOptBool (fields : List (String × Json)) (k : String) :
    Except DeserializationError (Option Bool) :=
  match getField fields k with
  | none => Except.ok none
  | some (Json.bool b) => Except.ok (some b)
  | some _ => Except.error (DeserializationError.typeMismatch k)

/-- Decode an optional natural-number field. -/
def decodeOptNat (fields : List (String × Json)) (k : String) :
    Except DeserializationError (Option Nat) :=
  match getField fields k with
  | none => Except.ok none
  | some (Json.num n) => Except.ok (some n)
  | some _ => Except.error (DeserializationError.typeMismatch k)

/-- Decode an optional string field. -/
def decodeOptStr (fields : List (String × Json)) (k : String) :
    Except DeserializationError (Option String) :=
  match getField fields k with
  | none => Except.ok none
  | some (Json.str s) => Except.ok (some s)
  | some _ => Except.error (DeserializationError.typeMismatch k)

/-- Decode a JSON value that must be an array of strings. -/
def decodeStrList (k : String) : Json → Except DeserializationError StringSet
  | Json.arr elems =>
    elems.foldrM
      (fun e acc =>
        match e with
        | Json.str s => Except.ok (s :: acc)
        | _ => Except.error (DeserializationError.typeMismatch k))
      []
  | _ => Except.error (DeserializationError.typeMismatch k)

/-- Decode an optional array-of-strings field. -/
def decodeOptStrList (fields : List (String × Json)) (k : String) :
    Except DeserializationError (Option StringSet) :=
  match getField fields k with
  | none => Except.ok none
  | some j => (decodeStrList k j).map some

/-- Decode an optional non-zero 64-bit size field; zero or an overflowing
value is rejected. -/
def decodeOptNonZeroU64 (fields : List (String × Json)) (k : String) :
    Except DeserializationError (Option NonZeroU64) :=
  match getField fields k with
  | none => Except.ok none
  | some (Json.num n) =>
    if h : 0 < n ∧ n < 2 ^ 64 then Except.ok (some ⟨n, h⟩)
    else Except.error (DeserializationError.invalidValue k)
  | some _ => Except.error (DeserializationError.typeMismatch k)

/-- Modelled from the spec: deserialization of the VCS aggregate under the
deny-unknown-fields policy. -/
def deserializeVcs (fields : List (String × Json)) :
    Except DeserializationError PartialVcsConfiguration :=
  match findUnknownKey vcsConfigurationKeys fields with
  | some k => Except.error (DeserializationError.unknownKey k)
  | none => do
    let enabled ← decodeOptBool fields "enabled"
    let uif ← decodeOptBool fields "useIgnoreFile"
    Except.ok { enabled := enabled, use_ignore_file := uif }

/-- Deserialization of the filesystem aggregate: the closed schema declared
in lib.rs lines 195-218 (`deny_unknown_fields`). -/
def deserializeFiles (fields : List (String × Json)) :
    Except DeserializationError PartialFilesConfiguration :=
  match findUnknownKey filesConfigurationKeys fields with
  | some k => Except.error (DeserializationError.unknownKey k)
  | none => do
    let ms ← decodeOptNonZeroU64 fields "maxSize"
    let ig ← decodeOptStrList fields "ignore"
    let inc ← decodeOptStrList fields "include"
    let iu ← decodeOptBool fields "ignoreUnknown"
    Except.ok { max_size := ms, ignore := ig, include_patterns := inc, ignore_unknown := iu }

/-- Modelled from the spec: deserialization of the formatter aggregate under
the deny-unknown-fields policy. -/
def deserializeFormatter (fields : List (String × Json)) :
    Except DeserializationError PartialFormatterConfiguration :=
  match findUnknownKey formatterConfigurationKeys fields with
  | some k => Except.error (DeserializationError.unknownKey k)
  | none => do
    let enabled ← decodeOptBool fields "enabled"
    let iw ← decodeOptNat fields "indentWidth"
    Except.ok { enabled := enabled, indent_width := iw }

/-- Modelled from the spec: deserialization of the import-organizer
aggregate under the deny-unknown-fields policy. -/
def deserializeOrganizeImports (fields : List (String × Json)) :
    Except DeserializationError PartialOrganizeImports :=
  match findUnknownKey organizeImportsKeys fields with
  | some k => Except.error (DeserializationError.unknownKey k)
  | none => do
    let enabled ← decodeOptBool fields "enabled"
    let ig ← decodeOptStrList fields "ignore"
    Except.ok { enabled := enabled, ignore := ig }

/-- Modelled from the spec: deserialization of the rule table under the
deny-unknown-fields policy. -/
def deserializeRules (fields : List (String × Json)) :
    Except DeserializationError Rules :=
  match findUnknownKey rulesKeys fields with
  | some k => Except.error (DeserializationError.unknownKey k)
  | none => do
    let rec' ← decodeOptBool fields "recommended"
    let all ← decodeOptBool fields "all"
    Except.ok { recommended := rec', all := all }

/-- Decode an optional object-valued field with the given sub-deserializer. -/
def decodeOptObj {α : Type} (fields : List (String × Json)) (k : String)
    (sub : List (String × Json) → Except DeserializationError α) :
    Except DeserializationError (Option α) :=
  match getField fields k with
  | none => Except.ok none
  | some (Json.obj subFields) => (sub subFields).map some
  | some _ => Except.error (DeserializationError.typeMismatch k)

/-- Modelled from the spec: deserialization of the linter aggregate under
the deny-unknown-fields policy. -/
def deserializeLinter (fields : List (String × Json)) :
    Except DeserializationError PartialLinterConfiguration :=
  match findUnknownKey linterConfigurationKeys fields with
  | some k => Except.error (DeserializationError.unknownKey k)
  | none => do
    let enabled ← decodeOptBool fields "enabled"
    let rules ← decodeOptObj fields "rules" deserializeRules
    let ig ← decodeOptStrList fields "ignore"
    Except.ok { enabled := enabled, rules := rules, ignore := ig }

/-- Modelled from the spec: deserialization of the JavaScript formatter
under the deny-unknown-fields policy. -/
def deserializeJavascriptFormatter (fields : List (String × Json)) :
    Except DeserializationError PartialJavascriptFormatter :=
  match findUnknownKey javascriptFormatterKeys fields with
  | some k => Except.error (DeserializationError.unknownKey k)
  | none => do
    let enabled ← decodeOptBool fields "enabled"
    let qs ← decodeOptStr fields "quoteStyle"
    Except.ok { enabled := enabled, quote_style := qs }

/-- Modelled from the spec: deserialization of the JavaScript aggregate
under the deny-unknown-fields policy. -/
def deserializeJavascript (fields : List (String × Json)) :
    Except DeserializationError PartialJavascriptConfiguration :=
  match findUnknownKey javascriptConfigurationKeys fields with
  | some k => Except.error (DeserializationError.unknownKey k)
  | none => do
    let fmt ← decodeOptObj fields "formatter" deserializeJavascriptFormatter
    Except.ok { formatter := fmt }

/-- Modelled from the spec: deserialization of the JSON formatter under the
deny-unknown-fields policy. -/
def deserializeJsonFormatter (fields : List (String × Json)) :
    Except DeserializationError PartialJsonFormatter :=
  match findUnknownKey jsonFormatterKeys fields with
  | some k => Except.error (DeserializationError.unknownKey k)
  | none => do
    let enabled ← decodeOptBool fields "enabled"
    let iw ← decodeOptNat fields "indentWidth"
    Except.ok { enabled := enabled, indent_width := iw }

/-- Modelled from the spec: deserialization of the JSON aggregate under the
deny-unknown-fields policy. -/
def deserializeJsonLanguage (fields : List (String × Json)) :
    Except DeserializationError PartialJsonConfiguration :=
  match findUnknownKey jsonConfigurationKeys fields with
  | some k => Except.error (DeserializationError.unknownKey k)
  | none => do
    let fmt ← decodeOptObj fields "formatter" deserializeJsonFormatter
    Except.ok { formatter := fmt }

/-- Modelled from the spec: deserialization of the CSS formatter under the
deny-unknown-fields policy. -/
def deserializeCssFormatter (fields : List (String × Json)) :
    Except DeserializationError PartialCssFormatter :=
  match findUnknownKey cssFormatterKeys fields with
  | some k => Except.error (DeserializationError.unknownKey k)
  | none => do
    let enabled ← decodeOptBool fields "enabled"
    Except.ok { enabled := enabled }

/-- Modelled from the spec: deserialization of the CSS aggregate under the
deny-unknown-fields policy. -/
def deserializeCss (fields : List (String × Json)) :
    Except DeserializationError PartialCssConfiguration :=
  match findUnknownKey cssConfigurationKeys fields with
  | some k => Except.error (DeserializationError.unknownKey k)
  | none => do
    let fmt ← decodeOptObj fields "formatter" deserializeCssFormatter
    Except.ok { formatter := fmt }

/-- Modelled from the spec: declared keys of an override pattern. -/
def overridePatternKeys : List String :=
  ["ignore", "include", "formatter", "linter", "organizeImports"]

/-- Modelled from the spec: deserialization of one override pattern under
the deny-unknown-fields policy, decoding its glob sets and its partial
per-tool configurations. -/
def deserializeOverridePattern (fields : List (String × Json)) :
    Except DeserializationError OverridePattern :=
  match findUnknownKey overridePatternKeys fields with
  | some k => Except.error (DeserializationError.unknownKey k)
  | none => do
    let ig ← decodeOptStrList fields "ignore"
    let inc ← decodeOptStrList fields "include"
    let fmt ← decodeOptObj fields "formatter" deserializeFormatter
    let lnt ← decodeOptObj fields "linter" deserializeLinter
    let oi ← decodeOptObj fields "organizeImports" deserializeOrganizeImports
    Except.ok { ignore := ig.getD [], include_patterns := inc.getD [],
                formatter := fmt, linter := lnt, organize_imports := oi }

/-- Decode the `overrides` array. -/
def decodeOverrides (k : String) : Json → Except DeserializationError Overrides
  | Json.arr elems =>
    elems.foldrM
      (fun e acc =>
        match e with
        | Json.obj fields => (deserializeOverridePattern fields).map (fun p => p :: acc)
        | _ => Except.error (DeserializationError.typeMismatch k))
      []
  | _ => Except.error (DeserializationError.typeMismatch k)

/-- Modelled from the spec: deserialization of a whole configuration
document into a `PartialConfiguration` under the closed-schema
(deny-unknown-fields) policy declared in lib.rs line 62: every key of
every object must be declared by its schema, otherwise the parse fails
with an error naming the offending key. -/
def deserializeConfiguration (j : Json) :
    Except DeserializationError PartialConfiguration :=
  match j with
  | Json.obj fields =>
    (match findUnknownKey configurationKeys fields with
     | some k => Except.error (DeserializationError.unknownKey k)
     | none => do
       let schema ← decodeOptStr fields "$schema"
       let vcs ← decodeOptObj fields "vcs" deserializeVcs
       let files ← decodeOptObj fields "files" deserializeFiles
       let fmt ← decodeOptObj fields "formatter" deserializeFormatter
       let oi ← decodeOptObj fields "organizeImports" deserializeOrganizeImports
       let linter ← decodeOptObj fields "linter" deserializeLinter
       let js ← decodeOptObj fields "javascript" deserializeJavascript
       let jsonCfg ← decodeOptObj fields "json" deserializeJsonLanguage
       let css ← decodeOptObj fields "css" deserializeCss
       let ext ← decodeOptStrList fields "extends"
       let ovr ←
         match getField fields "overrides" with
         | none => Except.ok none
         | some v => (decodeOverrides "overrides" v).map some
       Except.ok
         { schema := schema, vcs := vcs, files := files, formatter := fmt,
           organize_imports := oi, linter := linter, javascript := js,
           json := jsonCfg, css := css, extendsList := ext, overrides := ovr })
  | _ => Except.error (DeserializationError.typeMismatch "root")

/-- An object carries a key its flat schema does not declare. -/
def flatHasUnknownKey (keys : List String) (fields : List (String × Json)) : Bool :=
  (findUnknownKey keys fields).isSome

/-- The value of the given key is an object whose contents violate the
given sub-schema check; a non-object or absent value contributes nothing
at this nesting level. -/
def nestedObjHasUnknownKey (fields : List (String × Json)) (k : String)
    (sub : List (String × Json) → Bool) : Bool :=
  match getField fields k with
  | some (Json.obj subFields) => sub subFields
  | _ => false

/-- A linter object carries an undeclared key, at its own level or inside
its `rules` object. -/
def linterHasUnknownKey (fields : List (String × Json)) : Bool :=
  flatHasUnknownKey linterConfigurationKeys fields ||
  nestedObjHasUnknownKey fields "rules" (flatHasUnknownKey rulesKeys)

/-- A javascript object carries an undeclared key, at its own level or
inside its `formatter` object. -/
def javascriptHasUnknownKey (fields : List (String × Json)) : Bool :=
  flatHasUnknownKey javascriptConfigurationKeys fields ||
  nestedObjHasUnknownKey fields "formatter" (flatHasUnknownKey javascriptFormatterKeys)

/-- A json object carries an undeclared key, at its own level or inside its
`formatter` object. -/
def jsonLanguageHasUnknownKey (fields : List (String × Json)) : Bool :=
  flatHasUnknownKey jsonConfigurationKeys fields ||
  nestedObjHasUnknownKey fields "formatter" (flatHasUnknownKey jsonFormatterKeys)

/-- A css object carries an undeclared key, at its own level or inside its
`formatter` object. -/
def cssHasUnknownKey (fields : List (String × Json)) : Bool :=
  flatHasUnknownKey cssConfigurationKeys fields ||
  nestedObjHasUnknownKey fields "formatter" (flatHasUnknownKey cssFormatterKeys)

/-- An override pattern carries an undeclared key, at its own level or
inside one of its per-tool objects. -/
def overridePatternHasUnknownKey (fields : List (String × Json)) : Bool :=
  flatHasUnknownKey overridePatternKeys fields ||
  nestedObjHasUnknownKey fields "formatter" (flatHasUnknownKey formatterConfigurationKeys) ||
  nestedObjHasUnknownKey fields "linter" linterHasUnknownKey ||
  nestedObjHasUnknownKey fields "organizeImports" (flatHasUnknownKey organizeImportsKeys)

/-- The overrides array carries a pattern object with an undeclared key at
some nesting level. -/
def overridesHasUnknownKey : Json → Bool
  | Json.arr elems =>
    elems.any (fun e =>
      match e with
      | Json.obj f => overridePatternHasUnknownKey f
      | _ => false)
  | _ => false

/-- A configuration document carries, at some nesting level reached by the
closed schema, a key that the schema at that level does not declare. -/
def configHasUnknownKey : Json → Bool
  | Json.obj fields =>
    flatHasUnknownKey configurationKeys fields ||
    nestedObjHasUnknownKey fields "vcs" (flatHasUnknownKey vcsConfigurationKeys) ||
    nestedObjHasUnknownKey fields "files" (flatHasUnknownKey filesConfigurationKeys) ||
    nestedObjHasUnknownKey fields "formatter" (flatHasUnknownKey formatterConfigurationKeys) ||
    nestedObjHasUnknownKey fields "organizeImports" (flatHasUnknownKey organizeImportsKeys) ||
    nestedObjHasUnknownKey fields "linter" linterHasUnknownKey ||
    nestedObjHasUnknownKey fields "javascript" javascriptHasUnknownKey ||
    nestedObjHasUnknownKey fields "json" jsonLanguageHasUnknownKey ||
    nestedObjHasUnknownKey fields "css" cssHasUnknownKey ||
    (match getField fields "overrides" with
     | some ovr => overridesHasUnknownKey ovr
     | none => false)
  | _ => false

/-- Modelled from the spec: the edge relation of the extends graph.
`P` abstracts canonical resolved configuration paths; `g p` lists the
canonical paths that the file at `p` extends, and `stepRel g a b` holds
when `b` is extended by `a`. -/
abbrev stepRel {P : Type} (g : P → List P) (a b : P) : Prop := b ∈ g a

/-- Modelled from the spec: the cycle-detecting depth-first traversal of the
ExtendsResolver, which is not in the excerpt. `chain` is the list of
canonical resolved paths on the current dependency chain (the visited
set threaded through the traversal); reaching a path that is already on
the chain is a cycle, and the load fails with the offending chain as the
diagnostic. The traversal is bounded: every recursive descent adds a
fresh path to the chain, so the work is bounded by the number of
distinct paths. -/
def resolveList {P : Type} [DecidableEq P] [Fintype P] (g : P → List P)
    (chain : List P) : List P → Except (List P) Unit
  | [] => Except.ok ()
  | p :: ps =>
    if hp : p ∈ chain then Except.error (chain ++ [p])
    else
      match resolveList g (chain ++ [p]) (g p) with
      | Except.error e => Except.error e
      | Except.ok () => resolveList g chain ps
termination_by l => ((Finset.univ \ chain.toFinset).card, l.length)
decreasing_by
  · apply Prod.Lex.left
    apply Finset.card_lt_card
    rw [Finset.ssubset_iff_of_subset
      (Finset.sdiff_subset_sdiff (le_refl _) (by simp [List.toFinset_append]))]
    refine ⟨p, ?_, ?_⟩
    · simp [List.mem_toFinset, hp]
    · simp [List.toFinset_append]
  · apply Prod.Lex.right
    simp

/-- Modelled from the spec: the ExtendsResolver entry point, starting the
traversal at the root configuration file with an empty chain; it either
succeeds or fails with a cycle diagnostic. -/
def resolveExtends {P : Type} [DecidableEq P] [Fintype P] (g : P → List P)
    (root : P) : Except (List P) Unit :=
  resolveList g [] [root]

/-- A two-file extends cycle: file 0 extends file 1 and file 1 extends
file 0. -/
def g2 : Fin 2 → List (Fin 2) := fun i => [i + 1]

/-- A configuration with every tool aggregate present and explicitly
disabled (`enabled` set to `false`). -/
def allExplicitlyDisabled : PartialConfiguration :=
  { PartialConfiguration.default with
    vcs := some { PartialVcsConfiguration.default with enabled := some false },
    formatter := some { PartialFormatterConfiguration.default with enabled := some false },
    organize_imports := some { PartialOrganizeImports.default with enabled := some false },
    linter := some { PartialLinterConfiguration.default with enabled := some false } }

/-- A configuration whose top-level formatter is present with non-default
settings while the `javascript` and `json` aggregates are present with
absent `formatter` fields. -/
def topFormatterOnly : PartialConfiguration :=
  { PartialConfiguration.default with
    formatter := some { enabled := some false, indent_width := some 7 },
    javascript := some { formatter := none },
    json := some { formatter := none } }

theorem resolveList_ok_no_cycle {P : Type} [DecidableEq P] [Fintype P] (g : P → List P) :
    ∀ chain l, resolveList g chain l = Except.ok () →
      ∀ p ∈ l, ∀ c, Relation.ReflTransGen (stepRel g) p c →
        ¬ Relation.TransGen (stepRel g) c c := by
  intro chain l
  induction chain, l using resolveList.induct g with
  | case1 chain => intro _ p hp; simp at hp
  | case2 chain p ps hmem => intro hok; rw [resolveList] at hok; simp [hmem] at hok
  | case3 chain p ps hnm e herr ih =>
    intro hok; rw [resolveList] at hok; simp [hnm, herr] at hok
  | case4 chain p ps hnm hinner ih1 ih2 =>
    intro hok x hx c hrc hcc
    have hok2 : resolveList g chain ps = Except.ok () := by
      rw [resolveList] at hok; simp [hnm, hinner] at hok; exact hok
    have IH := ih1 hinner
    rcases List.mem_cons.mp hx with hxp | hxps
    · subst hxp
      rcases hrc.cases_head with heq | ⟨q, hq, hqc⟩
      · subst heq
        obtain ⟨q, hq, hqx⟩ := Relation.TransGen.head'_iff.mp hcc
        exact IH q hq x hqx hcc
      · exact IH q hq c hqc hcc
    · exact ih2 hok2 x hxps c hrc hcc

theorem resolveList_error_shape {P : Type} [DecidableEq P] [Fintype P] (g : P → List P) :
    ∀ chain l e, resolveList g chain l = Except.error e →
      ∃ q, e.getLast? = some q ∧ q ∈ e.dropLast := by
  intro chain l
  induction chain, l using resolveList.induct g with
  | case1 chain => intro e he; simp [resolveList] at he
  | case2 chain p ps hmem =>
    intro e he; rw [resolveList] at he; simp [hmem] at he
    subst he
    exact ⟨p, by simp, by simpa using hmem⟩
  | case3 chain p ps hnm e0 herr ih =>
    intro e he; rw [resolveList] at he; simp [hnm, herr] at he
    subst he
    exact ih e0 herr
  | case4 chain p ps hnm hinner ih1 ih2 =>
    intro e he
    rw [resolveList] at he; simp [hnm, hinner] at he
    exact ih2 e he

/-- C8: for every extends graph containing a cycle reachable from the root,
the ExtendsResolver terminates and fails the load with a cycle
diagnostic: the reported chain ends with a path that already occurs
earlier in the chain. -/
theorem c8_extends_cycle_detected {P : Type} [DecidableEq P] [Fintype P]
    (g : P → List P) (root : P)
    (h : ∃ c, Relation.ReflTransGen (stepRel g) root c ∧
      Relation.TransGen (stepRel g) c c) :
    ∃ e, resolveExtends g root = Except.error e ∧
      ∃ q, e.getLast? = some q ∧ q ∈ e.dropLast := by
  cases hres : resolveExtends g root with
  | ok u =>
    cases u
    obtain ⟨c, hrc, hcc⟩ := h
    exact absurd hcc (resolveList_ok_no_cycle g [] [root] hres root (by simp) c hrc)
  | error e =>
    exact ⟨e, rfl, resolveList_error_shape g [] [root] e hres⟩

/-- C8 witness: the two-file cycle (file 0 extends file 1, file 1 extends
file 0) fails with a cycle diagnostic. -/
theorem c8_extends_cycle_detected_witness :
    ∃ e, resolveExtends g2 0 = Except.error e ∧
      ∃ q, e.getLast? = some q ∧ q ∈ e.dropLast :=
  c8_extends_cycle_detected g2 0
    ⟨0, Relation.ReflTransGen.refl,
      Relation.TransGen.head (show (1 : Fin 2) ∈ g2 0 by decide)
        (Relation.TransGen.single (show (0 : Fin 2) ∈ g2 1 by decide))⟩

/-- C1 counterexample: the claim states that an absent aggregate makes each
of the four predicates return `true`, but on the all-absent configuration
`is_formatter_disabled`, `is_linter_disabled` and
`is_organize_imports_disabled` return `false`; only `is_vcs_disabled`
returns `true`. -/
theorem c1_counterexample :
    PartialConfiguration.default.formatter = none ∧
    PartialConfiguration.default.is_formatter_disabled = false ∧
    PartialConfiguration.default.linter = none ∧
    PartialConfiguration.default.is_linter_disabled = false ∧
    PartialConfiguration.default.organize_imports = none ∧
    PartialConfiguration.default.is_organize_imports_disabled = false ∧
    PartialConfiguration.default.vcs = none ∧
    PartialConfiguration.default.is_vcs_disabled = true :=
  ⟨rfl, rfl, rfl, rfl, rfl, rfl, rfl, rfl⟩

/-- C1 (amended): only `is_vcs_disabled` treats an absent aggregate as
disabled; for formatter, linter and organize_imports an absent aggregate
yields `false`, while an aggregate present with `enabled` explicitly set
to `false` yields `true` for all four predicates. Each of the eight
statements quantifies over its own configuration, constrained only in
the one aggregate that statement is about. -/
theorem c1_amended
    (p1 : PartialConfiguration) (h1 : p1.formatter = none)
    (p2 : PartialConfiguration) (h2 : p2.linter = none)
    (p3 : PartialConfiguration) (h3 : p3.organize_imports = none)
    (p4 : PartialConfiguration) (h4 : p4.vcs = none)
    (q1 : PartialConfiguration) (f : PartialFormatterConfiguration)
    (hq1 : q1.formatter = some f) (hf : f.enabled = some false)
    (q2 : PartialConfiguration) (l : PartialLinterConfiguration)
    (hq2 : q2.linter = some l) (hl : l.enabled = some false)
    (q3 : PartialConfiguration) (o : PartialOrganizeImports)
    (hq3 : q3.organize_imports = some o) (ho : o.enabled = some false)
    (q4 : PartialConfiguration) (w : PartialVcsConfiguration)
    (hq4 : q4.vcs = some w) (hw : w.enabled = some false) :
    p1.is_formatter_disabled = false ∧
    p2.is_linter_disabled = false ∧
    p3.is_organize_imports_disabled = false ∧
    p4.is_vcs_disabled = true ∧
    q1.is_formatter_disabled = true ∧
    q2.is_linter_disabled = true ∧
    q3.is_organize_imports_disabled = true ∧
    q4.is_vcs_disabled = true := by
  refine ⟨?_, ?_, ?_, ?_, ?_, ?_, ?_, ?_⟩
  · simp [PartialConfiguration.is_formatter_disabled, h1]
  · simp [PartialConfiguration.is_linter_disabled, h2]
  · simp [PartialConfiguration.is_organize_imports_disabled, h3]
  · simp [PartialConfiguration.is_vcs_disabled, h4]
  · simp [PartialConfiguration.is_formatter_disabled, hq1,
      PartialFormatterConfiguration.is_disabled, hf]
  · simp [PartialConfiguration.is_linter_disabled, hq2,
      PartialLinterConfiguration.is_disabled, hl]
  · simp [PartialConfiguration.is_organize_imports_disabled, hq3,
      PartialOrganizeImports.is_disabled, ho]
  · simp [PartialConfiguration.is_vcs_disabled, hq4,
      PartialVcsConfiguration.is_disabled, hw]

/-- C1 witness: the amended statement evaluated on the all-absent
configuration and the all-explicitly-disabled configuration. -/
theorem c1_amended_witness :
    PartialConfiguration.default.is_formatter_disabled = false ∧
    PartialConfiguration.default.is_linter_disabled = false ∧
    PartialConfiguration.default.is_organize_imports_disabled = false ∧
    PartialConfiguration.default.is_vcs_disabled = true ∧
    allExplicitlyDisabled.is_formatter_disabled = true ∧
    allExplicitlyDisabled.is_linter_disabled = true ∧
    allExplicitlyDisabled.is_organize_imports_disabled = true ∧
    allExplicitlyDisabled.is_vcs_disabled = true :=
  c1_amended
    PartialConfiguration.default rfl
    PartialConfiguration.default rfl
    PartialConfiguration.default rfl
    PartialConfiguration.default rfl
    allExplicitlyDisabled
    { PartialFormatterConfiguration.default with enabled := some false } rfl rfl
    allExplicitlyDisabled
    { PartialLinterConfiguration.default with enabled := some false } rfl rfl
    allExplicitlyDisabled
    { PartialOrganizeImports.default with enabled := some false } rfl rfl
    allExplicitlyDisabled
    { PartialVcsConfiguration.default with enabled := some false } rfl rfl

/-- C2 counterexample: with the top-level formatter present and non-default
and the language formatter fields absent, the language accessors return
the hard-coded defaults directly, so the top-level formatter is not
inherited. -/
theorem c2_counterexample :
    topFormatterOnly.formatter =
      some { enabled := some false, indent_width := some 7 } ∧
    some { enabled := (some false : Option Bool), indent_width := some 7 } ≠
      some PartialFormatterConfiguration.default ∧
    (topFormatterOnly.javascript.map
      (fun j => j.formatter)) = some none ∧
    topFormatterOnly.get_javascript_formatter_configuration =
      JavascriptFormatter.default ∧
    topFormatterOnly.get_json_formatter_configuration = JsonFormatter.default :=
  ⟨rfl, by decide, rfl, rfl, rfl⟩

/-- C2 (amended): when a configuration's `javascript` aggregate is absent
or its `formatter` field is absent, `get_javascript_formatter_configuration`
returns the hard-coded default directly; independently, when a
configuration's `json` aggregate is absent or its `formatter` field is
absent, `get_json_formatter_configuration` returns the hard-coded default
directly; and for every configuration the top-level formatter field is
never consulted by either accessor. -/
theorem c2_amended
    (p : PartialConfiguration)
    (hjs : p.javascript = none ∨
      ∃ j, p.javascript = some j ∧ j.formatter = none)
    (q : PartialConfiguration)
    (hjson : q.json = none ∨ ∃ j, q.json = some j ∧ j.formatter = none) :
    p.get_javascript_formatter_configuration = JavascriptFormatter.default ∧
    q.get_json_formatter_configuration = JsonFormatter.default ∧
    (∀ r : PartialConfiguration, ∀ f,
      ({ r with formatter := f } :
          PartialConfiguration).get_javascript_formatter_configuration =
        r.get_javascript_formatter_configuration) ∧
    (∀ r : PartialConfiguration, ∀ f,
      ({ r with formatter := f } :
          PartialConfiguration).get_json_formatter_configuration =
        r.get_json_formatter_configuration) := by
  refine ⟨?_, ?_, fun r f => rfl, fun r f => rfl⟩
  · rcases hjs with h | ⟨j, hj, hjf⟩
    · simp [PartialConfiguration.get_javascript_formatter_configuration, h]
    · simp [PartialConfiguration.get_javascript_formatter_configuration, hj, hjf]
  · rcases hjson with h | ⟨j, hj, hjf⟩
    · simp [PartialConfiguration.get_json_formatter_configuration, h]
    · simp [PartialConfiguration.get_json_formatter_configuration, hj, hjf]

/-- C2 witness: the amended statement evaluated on the configuration whose
language aggregates are present with absent formatter fields. -/
theorem c2_amended_witness :
    topFormatterOnly.get_javascript_formatter_configuration =
      JavascriptFormatter.default ∧
    topFormatterOnly.get_json_formatter_configuration = JsonFormatter.default ∧
    (∀ r : PartialConfiguration, ∀ f,
      ({ r with formatter := f } :
          PartialConfiguration).get_javascript_formatter_configuration =
        r.get_javascript_formatter_configuration) ∧
    (∀ r : PartialConfiguration, ∀ f,
      ({ r with formatter := f } :
          PartialConfiguration).get_json_formatter_configuration =
        r.get_json_formatter_configuration) :=
  c2_amended topFormatterOnly
    (Or.inr ⟨{ formatter := none }, rfl, rfl⟩)
    topFormatterOnly
    (Or.inr ⟨{ formatter := none }, rfl, rfl⟩)

/-- C3: `PartialConfiguration::init` has `organize_imports` present with
`enabled = some true` and all other subfields absent, `linter` present
with `enabled = some true` and `rules` present with
`recommended = some true` and all other subfields absent, and every
other field absent. -/
theorem c3_init_shape :
    PartialConfiguration.init.organize_imports =
      some { enabled := some true, ignore := none } ∧
    PartialConfiguration.init.linter =
      some { enabled := some true,
             rules := some { recommended := some true, all := none },
             ignore := none } ∧
    PartialConfiguration.init.schema = none ∧
    PartialConfiguration.init.vcs = none ∧
    PartialConfiguration.init.files = none ∧
    PartialConfiguration.init.formatter = none ∧
    PartialConfiguration.init.javascript = none ∧
    PartialConfiguration.init.json = none ∧
    PartialConfiguration.init.css = none ∧
    PartialConfiguration.init.extendsList = none ∧
    PartialConfiguration.init.overrides = none :=
  ⟨rfl, rfl, rfl, rfl, rfl, rfl, rfl, rfl, rfl, rfl, rfl⟩

/-- C4: resolving the all-absent partial configuration yields exactly the
hard-coded default configuration; the default filesystem settings have
`max_size` 1 048 576 and `ignore_unknown` false, and every resolution
accessor on the all-absent partial returns the default of its full
aggregate. -/
theorem c4_all_absent_resolves_to_default :
    PartialConfiguration.default.resolve = Configuration.default ∧
    FilesConfiguration.default.max_size.val = 1048576 ∧
    FilesConfiguration.default.ignore_unknown = false ∧
    PartialConfiguration.default.get_formatter_configuration =
      FormatterConfiguration.default ∧
    PartialConfiguration.default.get_linter_rules = Rules.default ∧
    PartialConfiguration.default.get_javascript_formatter_configuration =
      JavascriptFormatter.default ∧
    PartialConfiguration.default.get_json_formatter_configuration =
      JsonFormatter.default :=
  ⟨rfl, rfl, rfl, rfl, rfl, rfl, rfl⟩

/-- C5: `is_vcs_enabled` is the boolean negation of `is_vcs_disabled` for
every partial configuration, and when the `vcs` aggregate is absent,
`is_vcs_disabled` is true so `is_vcs_enabled` is false. -/
theorem c5_vcs_enabled_negation (p q : PartialConfiguration)
    (hq : q.vcs = none) :
    p.is_vcs_enabled = !p.is_vcs_disabled ∧
    q.is_vcs_disabled = true ∧ q.is_vcs_enabled = false := by
  refine ⟨rfl, ?_, ?_⟩
  · simp [PartialConfiguration.is_vcs_disabled, hq]
  · simp [PartialConfiguration.is_vcs_enabled,
      PartialConfiguration.is_vcs_disabled, hq]

/-- C5 witness: the statement evaluated with the all-explicitly-disabled
configuration and the all-absent configuration. -/
theorem c5_vcs_enabled_negation_witness :
    allExplicitlyDisabled.is_vcs_enabled = !allExplicitlyDisabled.is_vcs_disabled ∧
    PartialConfiguration.default.is_vcs_disabled = true ∧
    PartialConfiguration.default.is_vcs_enabled = false :=
  c5_vcs_enabled_negation allExplicitlyDisabled PartialConfiguration.default rfl

/-- C6: `max_size` is strictly positive in every `FilesConfiguration`,
including the default (built from `DEFAULT_FILE_SIZE_LIMIT`) and every
configuration resolved from a partial, because its type is a non-zero
integer type. -/
theorem c6_max_size_positive :
    (∀ fc : FilesConfiguration, 0 < fc.max_size.val) ∧
    0 < DEFAULT_FILE_SIZE_LIMIT.val ∧
    0 < FilesConfiguration.default.max_size.val ∧
    (∀ pf : Option PartialFilesConfiguration, 0 < (resolveFiles pf).max_size.val) :=
  ⟨fun fc => fc.max_size.2.1, by decide, by decide,
   fun pf => (resolveFiles pf).max_size.2.1⟩

/-- C9: `is_from_user` holds exactly on the `FromUser` variant and
`is_from_lsp` exactly on the `FromLsp` variant; both are false on the
`None` variant. -/
theorem c9_path_hint_predicates (h : ConfigurationPathHint) :
    (h.is_from_user = true ↔ ∃ p, h = ConfigurationPathHint.FromUser p) ∧
    (h.is_from_lsp = true ↔ ∃ p, h = ConfigurationPathHint.FromLsp p) ∧
    ConfigurationPathHint.None.is_from_user = false ∧
    ConfigurationPathHint.None.is_from_lsp = false := by
  refine ⟨?_, ?_, rfl, rfl⟩
  · cases h <;>
      simp [ConfigurationPathHint.is_from_user]
  · cases h <;>
      simp [ConfigurationPathHint.is_from_lsp]

/-- C10: the default `ConfigurationPathHint` is the `None` variant, under
which a missing configuration file is not an error. -/
theorem c10_default_path_hint :
    ConfigurationPathHint.default = ConfigurationPathHint.None ∧
    missing_file_is_error ConfigurationPathHint.default = false :=
  ⟨rfl, rfl⟩

/-- Successful bind in `Except` means both steps succeeded. -/
theorem except_bind_ok {eps alpha beta : Type} (x : Except eps alpha)
    (f : alpha → Except eps beta) (b : beta)
    (h : x >>= f = Except.ok b) : ∃ a, x = Except.ok a ∧ f a = Except.ok b := by
  cases x with
  | error e => simp [Bind.bind, Except.bind] at h
  | ok a => exact ⟨a, rfl, by simpa [Bind.bind, Except.bind] using h⟩

/-- A VCS object that deserializes has no undeclared key. -/
theorem deserializeVcs_ok (fields : List (String × Json)) (x : PartialVcsConfiguration)
    (h : deserializeVcs fields = Except.ok x) :
    flatHasUnknownKey vcsConfigurationKeys fields = false := by
  cases hf : findUnknownKey vcsConfigurationKeys fields with
  | none => simp [flatHasUnknownKey, hf]
  | some k => unfold deserializeVcs at h; rw [hf] at h; simp at h

/-- A files object that deserializes has no undeclared key. -/
theorem deserializeFiles_ok (fields : List (String × Json)) (x : PartialFilesConfiguration)
    (h : deserializeFiles fields = Except.ok x) :
    flatHasUnknownKey filesConfigurationKeys fields = false := by
  cases hf : findUnknownKey filesConfigurationKeys fields with
  | none => simp [flatHasUnknownKey, hf]
  | some k => unfold deserializeFiles at h; rw [hf] at h; simp at h

/-- A formatter object that deserializes has no undeclared key. -/
theorem deserializeFormatter_ok (fields : List (String × Json))
    (x : PartialFormatterConfiguration)
    (h : deserializeFormatter fields = Except.ok x) :
    flatHasUnknownKey formatterConfigurationKeys fields = false := by
  cases hf : findUnknownKey formatterConfigurationKeys fields with
  | none => simp [flatHasUnknownKey, hf]
  | some k => unfold deserializeFormatter at h; rw [hf] at h; simp at h

/-- An organize-imports object that deserializes has no undeclared key. -/
theorem deserializeOrganizeImports_ok (fields : List (String × Json))
    (x : PartialOrganizeImports)
    (h : deserializeOrganizeImports fields = Except.ok x) :
    flatHasUnknownKey organizeImportsKeys fields = false := by
  cases hf : findUnknownKey organizeImportsKeys fields with
  | none => simp [flatHasUnknownKey, hf]
  | some k => unfold deserializeOrganizeImports at h; rw [hf] at h; simp at h

/-- A rules object that deserializes has no undeclared key. -/
theorem deserializeRules_ok (fields : List (String × Json)) (x : Rules)
    (h : deserializeRules fields = Except.ok x) :
    flatHasUnknownKey rulesKeys fields = false := by
  cases hf : findUnknownKey rulesKeys fields with
  | none => simp [flatHasUnknownKey, hf]
  | some k => unfold deserializeRules at h; rw [hf] at h; simp at h

/-- A JavaScript formatter object that deserializes has no undeclared key. -/
theorem deserializeJavascriptFormatter_ok (fields : List (String × Json))
    (x : PartialJavascriptFormatter)
    (h : deserializeJavascriptFormatter fields = Except.ok x) :
    flatHasUnknownKey javascriptFormatterKeys fields = false := by
  cases hf : findUnknownKey javascriptFormatterKeys fields with
  | none => simp [flatHasUnknownKey, hf]
  | some k => unfold deserializeJavascriptFormatter at h; rw [hf] at h; simp at h

/-- A JSON formatter object that deserializes has no undeclared key. -/
theorem deserializeJsonFormatter_ok (fields : List (String × Json))
    (x : PartialJsonFormatter)
    (h : deserializeJsonFormatter fields = Except.ok x) :
    flatHasUnknownKey jsonFormatterKeys fields = false := by
  cases hf : findUnknownKey jsonFormatterKeys fields with
  | none => simp [flatHasUnknownKey, hf]
  | some k => unfold deserializeJsonFormatter at h; rw [hf] at h; simp at h

/-- A CSS formatter object that deserializes has no undeclared key. -/
theorem deserializeCssFormatter_ok (fields : List (String × Json))
    (x : PartialCssFormatter)
    (h : deserializeCssFormatter fields = Except.ok x) :
    flatHasUnknownKey cssFormatterKeys fields = false := by
  cases hf : findUnknownKey cssFormatterKeys fields with
  | none => simp [flatHasUnknownKey, hf]
  | some k => unfold deserializeCssFormatter at h; rw [hf] at h; simp at h

/-- A successfully decoded optional object field passes its sub-schema
check, given that the sub-deserializer only succeeds on key-clean
objects. -/
theorem decodeOptObj_ok {alpha : Type} (fields : List (String × Json)) (k : String)
    (sub : List (String × Json) → Except DeserializationError alpha)
    (subPred : List (String × Json) → Bool)
    (hsub : ∀ sf y, sub sf = Except.ok y → subPred sf = false)
    (v : Option alpha) (h : decodeOptObj fields k sub = Except.ok v) :
    nestedObjHasUnknownKey fields k subPred = false := by
  unfold decodeOptObj at h
  unfold nestedObjHasUnknownKey
  cases hg : getField fields k with
  | none => rfl
  | some j =>
    rw [hg] at h
    cases j with
    | obj sf =>
      cases hs : sub sf with
      | error e => simp [hs, Except.map] at h
      | ok a => simpa using hsub sf a hs
    | null => rfl
    | bool b => rfl
    | num n => rfl
    | str s => rfl
    | arr l => rfl

/-- A linter object that deserializes has no undeclared key at either of
its levels. -/
theorem deserializeLinter_ok (fields : List (String × Json)) (x : PartialLinterConfiguration)
    (h : deserializeLinter fields = Except.ok x) :
    linterHasUnknownKey fields = false := by
  unfold deserializeLinter at h
  cases hf : findUnknownKey linterConfigurationKeys fields with
  | some k => rw [hf] at h; simp at h
  | none =>
    rw [hf] at h
    obtain ⟨en, h1, h⟩ := except_bind_ok _ _ _ h
    obtain ⟨rl, h2, h⟩ := except_bind_ok _ _ _ h
    unfold linterHasUnknownKey
    rw [Bool.or_eq_false_iff]
    constructor
    · simp [flatHasUnknownKey, hf]
    · exact decodeOptObj_ok fields "rules" deserializeRules (flatHasUnknownKey rulesKeys)
        (fun sf y hy => deserializeRules_ok sf y hy) rl h2

/-- A javascript object that deserializes has no undeclared key at either
of its levels. -/
theorem deserializeJavascript_ok (fields : List (String × Json))
    (x : PartialJavascriptConfiguration)
    (h : deserializeJavascript fields = Except.ok x) :
    javascriptHasUnknownKey fields = false := by
  unfold deserializeJavascript at h
  cases hf : findUnknownKey javascriptConfigurationKeys fields with
  | some k => rw [hf] at h; simp at h
  | none =>
    rw [hf] at h
    obtain ⟨fmt, h1, h⟩ := except_bind_ok _ _ _ h
    unfold javascriptHasUnknownKey
    rw [Bool.or_eq_false_iff]
    constructor
    · simp [flatHasUnknownKey, hf]
    · exact decodeOptObj_ok fields "formatter" deserializeJavascriptFormatter
        (flatHasUnknownKey javascriptFormatterKeys)
        (fun sf y hy => deserializeJavascriptFormatter_ok sf y hy) fmt h1

/-- A json object that deserializes has no undeclared key at either of its
levels. -/
theorem deserializeJsonLanguage_ok (fields : List (String × Json))
    (x : PartialJsonConfiguration)
    (h : deserializeJsonLanguage fields = Except.ok x) :
    jsonLanguageHasUnknownKey fields = false := by
  unfold deserializeJsonLanguage at h
  cases hf : findUnknownKey jsonConfigurationKeys fields with
  | some k => rw [hf] at h; simp at h
  | none =>
    rw [hf] at h
    obtain ⟨fmt, h1, h⟩ := except_bind_ok _ _ _ h
    unfold jsonLanguageHasUnknownKey
    rw [Bool.or_eq_false_iff]
    constructor
    · simp [flatHasUnknownKey, hf]
    · exact decodeOptObj_ok fields "formatter" deserializeJsonFormatter
        (flatHasUnknownKey jsonFormatterKeys)
        (fun sf y hy => deserializeJsonFormatter_ok sf y hy) fmt h1

/-- A css object that deserializes has no undeclared key at either of its
levels. -/
theorem deserializeCss_ok (fields : List (String × Json)) (x : PartialCssConfiguration)
    (h : deserializeCss fields = Except.ok x) :
    cssHasUnknownKey fields = false := by
  unfold deserializeCss at h
  cases hf : findUnknownKey cssConfigurationKeys fields with
  | some k => rw [hf] at h; simp at h
  | none =>
    rw [hf] at h
    obtain ⟨fmt, h1, h⟩ := except_bind_ok _ _ _ h
    unfold cssHasUnknownKey
    rw [Bool.or_eq_false_iff]
    constructor
    · simp [flatHasUnknownKey, hf]
    · exact decodeOptObj_ok fields "formatter" deserializeCssFormatter
        (flatHasUnknownKey cssFormatterKeys)
        (fun sf y hy => deserializeCssFormatter_ok sf y hy) fmt h1

/-- An override pattern that deserializes has no undeclared key at any of
its levels. -/
theorem deserializeOverridePattern_ok (fields : List (String × Json)) (x : OverridePattern)
    (h : deserializeOverridePattern fields = Except.ok x) :
    overridePatternHasUnknownKey fields = false := by
  unfold deserializeOverridePattern at h
  cases hf : findUnknownKey overridePatternKeys fields with
  | some k => rw [hf] at h; simp at h
  | none =>
    rw [hf] at h
    obtain ⟨ig, h1, h⟩ := except_bind_ok _ _ _ h
    obtain ⟨inc, h2, h⟩ := except_bind_ok _ _ _ h
    obtain ⟨fmt, h3, h⟩ := except_bind_ok _ _ _ h
    obtain ⟨lnt, h4, h⟩ := except_bind_ok _ _ _ h
    obtain ⟨oi, h5, h⟩ := except_bind_ok _ _ _ h
    unfold overridePatternHasUnknownKey
    rw [Bool.or_eq_false_iff, Bool.or_eq_false_iff, Bool.or_eq_false_iff]
    refine ⟨⟨⟨?_, ?_⟩, ?_⟩, ?_⟩
    · simp [flatHasUnknownKey, hf]
    · exact decodeOptObj_ok fields "formatter" deserializeFormatter
        (flatHasUnknownKey formatterConfigurationKeys)
        (fun sf y hy => deserializeFormatter_ok sf y hy) fmt h3
    · exact decodeOptObj_ok fields "linter" deserializeLinter linterHasUnknownKey
        (fun sf y hy => deserializeLinter_ok sf y hy) lnt h4
    · exact decodeOptObj_ok fields "organizeImports" deserializeOrganizeImports
        (flatHasUnknownKey organizeImportsKeys)
        (fun sf y hy => deserializeOrganizeImports_ok sf y hy) oi h5

/-- An overrides value that decodes has no undeclared key in any of its
patterns. -/
theorem decodeOverrides_ok (v : Json) (l : Overrides)
    (h : decodeOverrides "overrides" v = Except.ok l) :
    overridesHasUnknownKey v = false := by
  cases v with
  | arr elems =>
    simp only [decodeOverrides] at h
    simp only [overridesHasUnknownKey]
    induction elems generalizing l with
    | nil => simp
    | cons e es ih =>
      rw [List.foldrM_cons] at h
      obtain ⟨acc, hacc, hfe⟩ := except_bind_ok _ _ _ h
      rw [List.any_cons, Bool.or_eq_false_iff]
      constructor
      · cases e with
        | obj f =>
          cases hp : deserializeOverridePattern f with
          | error err => simp [hp, Except.map] at hfe
          | ok pat => simpa using deserializeOverridePattern_ok f pat hp
        | null => simp at hfe
        | bool b => simp at hfe
        | num n => simp at hfe
        | str s => simp at hfe
        | arr a => simp at hfe
      · exact ih acc hacc
  | null => simp [decodeOverrides] at h
  | bool b => simp [decodeOverrides] at h
  | num n => simp [decodeOverrides] at h
  | str s => simp [decodeOverrides] at h
  | obj f => simp [decodeOverrides] at h

/-- A document that deserializes successfully carries no undeclared key at
any nesting level the closed schema reaches: unknown fields are never
silently accepted. -/
theorem deserializeConfiguration_ok (d : Json) (c : PartialConfiguration)
    (h : deserializeConfiguration d = Except.ok c) : configHasUnknownKey d = false := by
  cases d with
  | obj fields =>
    simp only [deserializeConfiguration] at h
    cases hf : findUnknownKey configurationKeys fields with
    | some k => rw [hf] at h; simp at h
    | none =>
      rw [hf] at h
      obtain ⟨schema, h1, h⟩ := except_bind_ok _ _ _ h
      obtain ⟨vcs, h2, h⟩ := except_bind_ok _ _ _ h
      obtain ⟨files, h3, h⟩ := except_bind_ok _ _ _ h
      obtain ⟨fmt, h4, h⟩ := except_bind_ok _ _ _ h
      obtain ⟨oi, h5, h⟩ := except_bind_ok _ _ _ h
      obtain ⟨lnt, h6, h⟩ := except_bind_ok _ _ _ h
      obtain ⟨js, h7, h⟩ := except_bind_ok _ _ _ h
      obtain ⟨jsn, h8, h⟩ := except_bind_ok _ _ _ h
      obtain ⟨css, h9, h⟩ := except_bind_ok _ _ _ h
      obtain ⟨ext, h10, h⟩ := except_bind_ok _ _ _ h
      have g1 : flatHasUnknownKey configurationKeys fields = false := by
        simp [flatHasUnknownKey, hf]
      have g2 := decodeOptObj_ok fields "vcs" deserializeVcs
        (flatHasUnknownKey vcsConfigurationKeys)
        (fun sf y hy => deserializeVcs_ok sf y hy) vcs h2
      have g3 := decodeOptObj_ok fields "files" deserializeFiles
        (flatHasUnknownKey filesConfigurationKeys)
        (fun sf y hy => deserializeFiles_ok sf y hy) files h3
      have g4 := decodeOptObj_ok fields "formatter" deserializeFormatter
        (flatHasUnknownKey formatterConfigurationKeys)
        (fun sf y hy => deserializeFormatter_ok sf y hy) fmt h4
      have g5 := decodeOptObj_ok fields "organizeImports" deserializeOrganizeImports
        (flatHasUnknownKey organizeImportsKeys)
        (fun sf y hy => deserializeOrganizeImports_ok sf y hy) oi h5
      have g6 := decodeOptObj_ok fields "linter" deserializeLinter linterHasUnknownKey
        (fun sf y hy => deserializeLinter_ok sf y hy) lnt h6
      have g7 := decodeOptObj_ok fields "javascript" deserializeJavascript
        javascriptHasUnknownKey
        (fun sf y hy => deserializeJavascript_ok sf y hy) js h7
      have g8 := decodeOptObj_ok fields "json" deserializeJsonLanguage
        jsonLanguageHasUnknownKey
        (fun sf y hy => deserializeJsonLanguage_ok sf y hy) jsn h8
      have g9 := decodeOptObj_ok fields "css" deserializeCss cssHasUnknownKey
        (fun sf y hy => deserializeCss_ok sf y hy) css h9
      have g10 : (match getField fields "overrides" with
          | some ovr => overridesHasUnknownKey ovr
          | none => false) = false := by
        cases hg : getField fields "overrides" with
        | none => rfl
        | some v =>
          rw [hg] at h
          obtain ⟨ovr, hov, h⟩ := except_bind_ok _ _ _ h
          cases hdo : decodeOverrides "overrides" v with
          | error e => rw [hdo] at hov; simp [Except.map] at hov
          | ok dl => simpa using decodeOverrides_ok v dl hdo
      simp only [configHasUnknownKey]
      rw [g1, g2, g3, g4, g5, g6, g7, g8, g9, g10]
      rfl
  | null => simp [deserializeConfiguration] at h
  | bool b => simp [deserializeConfiguration] at h
  | num n => simp [deserializeConfiguration] at h
  | str s => simp [deserializeConfiguration] at h
  | arr a => simp [deserializeConfiguration] at h

/-- C7: a configuration document containing a key not declared by the
closed schema fails deserialization: an unrecognized top-level key and
an unrecognized key nested inside the `files` aggregate each fail with
a hard error naming an undeclared key of the document, and in general a
document carrying an undeclared key at any nesting level the schema
reaches fails with a hard error (unknown fields are never silently
accepted). -/
theorem c7_unknown_key_rejected
    (fields : List (String × Json)) (k : String) (v : Json)
    (hmem : (k, v) ∈ fields) (hk : k ∉ configurationKeys)
    (ffields : List (String × Json)) (k2 : String) (v2 : Json)
    (hmem2 : (k2, v2) ∈ ffields) (hk2 : k2 ∉ filesConfigurationKeys) :
    (∃ bad, deserializeConfiguration (Json.obj fields) =
        Except.error (DeserializationError.unknownKey bad) ∧
      bad ∉ configurationKeys ∧ bad ∈ fields.map Prod.fst) ∧
    (∃ bad, deserializeConfiguration (Json.obj [("files", Json.obj ffields)]) =
        Except.error (DeserializationError.unknownKey bad) ∧
      bad ∉ filesConfigurationKeys ∧ bad ∈ ffields.map Prod.fst) ∧
    (∀ d : Json, configHasUnknownKey d = true →
      ∃ err, deserializeConfiguration d = Except.error err) := by
  refine ⟨?_, ?_, ?_⟩
  · have hsome : (fields.find? (fun kv => !(configurationKeys.contains kv.1))).isSome := by
      rw [List.find?_isSome]
      exact ⟨(k, v), hmem, by simp [hk]⟩
    obtain ⟨kv, hfind⟩ := Option.isSome_iff_exists.mp hsome
    have hprop := List.find?_some hfind
    have hmemkv := List.mem_of_find?_eq_some hfind
    have hfu : findUnknownKey configurationKeys fields = some kv.1 := by
      unfold findUnknownKey
      rw [hfind]
      rfl
    refine ⟨kv.1, ?_, ?_, ?_⟩
    · simp only [deserializeConfiguration]
      rw [hfu]
    · simpa using hprop
    · exact List.mem_map_of_mem Prod.fst hmemkv
  · have hsome : (ffields.find? (fun kv => !(filesConfigurationKeys.contains kv.1))).isSome := by
      rw [List.find?_isSome]
      exact ⟨(k2, v2), hmem2, by simp [hk2]⟩
    obtain ⟨kv, hfind⟩ := Option.isSome_iff_exists.mp hsome
    have hprop := List.find?_some hfind
    have hmemkv := List.mem_of_find?_eq_some hfind
    have hfu : findUnknownKey filesConfigurationKeys ffields = some kv.1 := by
      unfold findUnknownKey
      rw [hfind]
      rfl
    have hfiles : decodeOptObj [("files", Json.obj ffields)] "files" deserializeFiles =
        Except.error (DeserializationError.unknownKey kv.1) := by
      unfold decodeOptObj
      show Except.map some (deserializeFiles ffields) = _
      unfold deserializeFiles
      rw [hfu]
      rfl
    refine ⟨kv.1, ?_, ?_, ?_⟩
    · have h0 : findUnknownKey configurationKeys [("files", Json.obj ffields)] = none := rfl
      simp only [deserializeConfiguration]
      rw [h0, hfiles]
      rfl
    · simpa using hprop
    · exact List.mem_map_of_mem Prod.fst hmemkv
  · intro d hd
    cases hres : deserializeConfiguration d with
    | error err => exact ⟨err, rfl⟩
    | ok c => simp [deserializeConfiguration_ok d c hres] at hd

/-- C7 witness: a document with the unrecognized top-level key `fooBar`
fails naming it, and a document whose `files` object carries the
unrecognized key `sizeLimit` fails naming it. -/
theorem c7_unknown_key_rejected_witness :
    (∃ bad, deserializeConfiguration (Json.obj [("fooBar", Json.bool true)]) =
        Except.error (DeserializationError.unknownKey bad) ∧
      bad ∉ configurationKeys ∧
      bad ∈ [("fooBar", Json.bool true)].map Prod.fst) ∧
    (∃ bad, deserializeConfiguration
        (Json.obj [("files", Json.obj [("sizeLimit", Json.num 3)])]) =
        Except.error (DeserializationError.unknownKey bad) ∧
      bad ∉ filesConfigurationKeys ∧
      bad ∈ [("sizeLimit", Json.num 3)].map Prod.fst) ∧
    (∀ d : Json, configHasUnknownKey d = true →
      ∃ err, deserializeConfiguration d = Except.error err) :=
  c7_unknown_key_rejected [("fooBar", Json.bool true)] "fooBar" (Json.bool true)
    (by simp) (by decide)
    [("sizeLimit", Json.num 3)] "sizeLimit" (Json.num 3) (by simp) (by decide)

end Biome
